import Mathlib

/-!
Verification of the real-time media streaming and session-lifecycle pipeline
of the SignSpeak interpreter client (src/components/Interpreter.tsx and the
audio utility module it imports).

The component is a single-threaded, event-driven state machine.  We embed its
state as an explicit structure and each handler (startSession, stopSession,
handleServerMessage, the audio-capture callback, the transport error callback)
as a pure state-transition function, translated line by line from the source.
Wall-clock times and audio durations are modelled as rationals; byte buffers
as lists of naturals below 256.
-/

namespace SignSpeak

/-- Connection states of the session controller, from src/types.ts
(enum ConnectionState). -/
inductive ConnectionState where
  | DISCONNECTED
  | CONNECTING
  | CONNECTED
  | ERROR
deriving DecidableEq, Repr

/-- Roles of a transcript turn, from src/types.ts (Message.role). -/
inductive Role where
  | user
  | model
  | system
deriving DecidableEq, Repr

/-- A finalized transcript turn, from src/types.ts (interface Message):
id, role, text, timestamp, optional isFinal flag.  Timestamps are modelled
as naturals (milliseconds since epoch, as produced by Date.now()). -/
structure Message where
  id : String
  role : Role
  text : String
  timestamp : Nat
  isFinal : Option Bool := none
deriving DecidableEq, Repr

/-- The playback scheduler of handleServerMessage (Interpreter.tsx lines
264-278), abstracted over decoding: given the cursor (nextStartTimeRef) and a
list of frames, each an (arrival clock time, decoded duration) pair, it
returns the list of (scheduled start time, duration) pairs.  Per frame the
source computes startTime = max(ctx.currentTime, nextStartTimeRef.current),
starts playback there, and sets nextStartTimeRef.current =
startTime + audioBuffer.duration. -/
def scheduledIntervals (cursor : ℚ) : List (ℚ × ℚ) → List (ℚ × ℚ)
  | [] => []
  | (now, dur) :: rest =>
    let s := max now cursor
    (s, dur) :: scheduledIntervals (s + dur) rest

theorem scheduledIntervals_length (cursor : ℚ) (frames : List (ℚ × ℚ)) :
    (scheduledIntervals cursor frames).length = frames.length := by
  induction frames generalizing cursor with
  | nil => rfl
  | cons f rest ih =>
    obtain ⟨now, dur⟩ := f
    simp [scheduledIntervals, ih]

/-- Every scheduled start time is at least the cursor the scheduler started
from (the first scheduled interval in particular). -/
theorem scheduledIntervals_head_ge (cursor : ℚ) (frames : List (ℚ × ℚ))
    (p : ℚ × ℚ) (hp : p ∈ (scheduledIntervals cursor frames).head?) :
    cursor ≤ p.1 := by
  cases frames with
  | nil => simp [scheduledIntervals] at hp
  | cons f rest =>
    obtain ⟨now, dur⟩ := f
    simp [scheduledIntervals] at hp
    subst hp
    exact le_max_right now cursor

/-- Chained no-overlap property: each scheduled interval ends no later than
the next one starts, for an arbitrary initial cursor. -/
theorem scheduledIntervals_chain (cursor : ℚ) (frames : List (ℚ × ℚ)) :
    List.Chain' (fun a b : ℚ × ℚ => a.1 + a.2 ≤ b.1)
      (scheduledIntervals cursor frames) := by
  induction frames generalizing cursor with
  | nil => simp [scheduledIntervals]
  | cons f rest ih =>
    obtain ⟨now, dur⟩ := f
    rw [scheduledIntervals, List.chain'_cons']
    refine ⟨?_, ih _⟩
    intro b hb
    exact scheduledIntervals_head_ge _ _ _ hb

/-- Start times are non-decreasing when all frame durations are nonnegative,
for an arbitrary initial cursor. -/
theorem scheduledIntervals_mono (cursor : ℚ) (frames : List (ℚ × ℚ))
    (hd : ∀ f ∈ frames, 0 ≤ f.2) :
    List.Chain' (fun a b : ℚ × ℚ => a.1 ≤ b.1)
      (scheduledIntervals cursor frames) := by
  induction frames generalizing cursor with
  | nil => simp [scheduledIntervals]
  | cons f rest ih =>
    obtain ⟨now, dur⟩ := f
    rw [scheduledIntervals, List.chain'_cons']
    refine ⟨?_, ih _ fun g hg => hd g (List.mem_cons_of_mem _ hg)⟩
    intro b hb
    have h1 : max now cursor + dur ≤ b.1 :=
      scheduledIntervals_head_ge _ _ _ hb
    have h2 : 0 ≤ dur := hd (now, dur) (List.mem_cons_self _ _)
    have : max now cursor ≤ max now cursor + dur := by linarith
    exact le_trans this h1

/-- C1: for every sequence of inbound audio frames with arbitrary arrival
clock times and nonnegative durations, scheduling with the cursor initialized
to 0 (nextStartTimeRef starts at 0) yields intervals such that each frame
ends no later than the next starts (start(i+1) >= start(i) + d(i), so no two
playback intervals overlap) and start times are non-decreasing. -/
theorem scheduler_no_overlap (frames : List (ℚ × ℚ))
    (hd : ∀ f ∈ frames, 0 ≤ f.2) :
    List.Chain' (fun a b : ℚ × ℚ => a.1 + a.2 ≤ b.1)
      (scheduledIntervals 0 frames) ∧
    List.Chain' (fun a b : ℚ × ℚ => a.1 ≤ b.1)
      (scheduledIntervals 0 frames) :=
  ⟨scheduledIntervals_chain 0 frames, scheduledIntervals_mono 0 frames hd⟩

/-- Witness for C1 at a concrete frame sequence: frames of durations 1, 2, 1
arriving at clock times 0, 0, 5. -/
theorem scheduler_no_overlap_witness :
    (∀ f ∈ [((0 : ℚ), (1 : ℚ)), (0, 2), (5, 1)], 0 ≤ f.2) ∧
    (List.Chain' (fun a b : ℚ × ℚ => a.1 + a.2 ≤ b.1)
      (scheduledIntervals 0 [((0 : ℚ), (1 : ℚ)), (0, 2), (5, 1)]) ∧
    List.Chain' (fun a b : ℚ × ℚ => a.1 ≤ b.1)
      (scheduledIntervals 0 [((0 : ℚ), (1 : ℚ)), (0, 2), (5, 1)])) :=
  ⟨by decide, scheduler_no_overlap _ (by decide)⟩

/-- The interpreter component's state (Interpreter.tsx lines 24-42): the
React state variables and the mutable refs.  Device and session handles are
modelled by presence flags (a ref holding null is false); activeTransports
counts transports that have been opened and not yet closed, to express the
single-active-transport invariant. -/
structure InterpreterState where
  connectionState : ConnectionState
  isMuted : Bool
  isVideoEnabled : Bool
  messages : List Message
  currentTranscription : String
  errorMsg : Option String
  streamRef : Bool
  sessionRef : Bool
  sessionPromiseRef : Bool
  nextStartTime : ℚ
  frameIntervalRef : Bool
  processorRef : Bool
  sourceRef : Bool
  activeTransports : Nat
deriving DecidableEq, Repr

/-- The initial state of the component (the useState initializers and useRef
initial values of Interpreter.tsx lines 24-42). -/
def initialState : InterpreterState :=
  { connectionState := ConnectionState.DISCONNECTED
    isMuted := false
    isVideoEnabled := true
    messages := []
    currentTranscription := ""
    errorMsg := none
    streamRef := false
    sessionRef := false
    sessionPromiseRef := false
    nextStartTime := 0
    frameIntervalRef := false
    processorRef := false
    sourceRef := false
    activeTransports := 0 }

/-- stopMediaProcessing (Interpreter.tsx lines 177-190): cancels the video
frame timer and disconnects and clears the audio processor and source nodes.
Every branch is guarded by a null check in the source, so the net effect is
to clear all three handles. -/
def stopMediaProcessing (s : InterpreterState) : InterpreterState :=
  { s with frameIntervalRef := false, processorRef := false, sourceRef := false }

/-- stopSession (Interpreter.tsx lines 156-175): stops all media tracks and
clears the stream ref, runs stopMediaProcessing, closes the session if one is
held (close failures are caught and logged, so the state update proceeds
regardless), sets the connection state to DISCONNECTED and clears the pending
transcription.  The finalized messages list is deliberately left untouched
(source comment on line 173). -/
def stopSession (s : InterpreterState) : InterpreterState :=
  let s1 := if s.streamRef then { s with streamRef := false } else s
  let s2 := stopMediaProcessing s1
  let s3 := if s2.sessionRef then
      { s2 with sessionRef := false, activeTransports := s2.activeTransports - 1 }
    else s2
  { s3 with connectionState := ConnectionState.DISCONNECTED,
            currentTranscription := "" }

/-- The catch block of startSession (Interpreter.tsx lines 148-153): sets the
connection state to ERROR, surfaces the error message, then calls
stopSession. -/
def handleStartFailure (msg : String) (s : InterpreterState) : InterpreterState :=
  stopSession { s with connectionState := ConnectionState.ERROR,
                       errorMsg := some msg }

/-- The transport onerror callback (Interpreter.tsx lines 134-139): sets the
connection state to ERROR, surfaces a fixed message, then calls stopSession.
The second component records, in order, the connection states assigned while
the handler runs (ERROR first, then DISCONNECTED inside stopSession). -/
def handleTransportErrorRun (s : InterpreterState) :
    InterpreterState × List ConnectionState :=
  (stopSession { s with connectionState := ConnectionState.ERROR,
                        errorMsg := some "Connection error occurred. Please try again." },
   [ConnectionState.ERROR, ConnectionState.DISCONNECTED])

/-- The environment of one startSession attempt: the credential read from
process.env.API_KEY (none when undefined), whether getUserMedia succeeds, and
whether the transport handshake succeeds (the onopen callback fires). -/
structure StartEnv where
  apiKey : Option String
  mediaOk : Bool
  openOk : Bool
deriving DecidableEq, Repr

/-- The credential check of Interpreter.tsx line 77: JavaScript truthiness,
so both an undefined key and an empty-string key count as missing. -/
def credentialPresent (k : Option String) : Bool := k.getD "" ≠ ""

/-- startSession (Interpreter.tsx lines 72-154), as a transition on the
component state paired with the ordered trace of connection states assigned
during the attempt.  Faithful to the source's order: clear the error message;
check the credential and throw before any state change if it is missing
(the catch block then runs handleStartFailure); set CONNECTING; acquire the
media stream (failure lands in the same catch block); call the transport
connect, which opens a new transport and stores the session promise and
handle without inspecting or closing any existing one; on the onopen
callback set CONNECTED and start audio input and video streaming (processor,
source and frame-timer handles set). -/
def startSessionRun (env : StartEnv) (s : InterpreterState) :
    InterpreterState × List ConnectionState :=
  let s0 := { s with errorMsg := none }
  if credentialPresent env.apiKey = false then
    (handleStartFailure "API Key is missing. Please check your deployment settings or .env file." s0,
     [ConnectionState.ERROR, ConnectionState.DISCONNECTED])
  else
    let s1 := { s0 with connectionState := ConnectionState.CONNECTING }
    if env.mediaOk = false then
      (handleStartFailure "Failed to access camera/microphone or connect." s1,
       [ConnectionState.CONNECTING, ConnectionState.ERROR, ConnectionState.DISCONNECTED])
    else
      let s2 := { s1 with streamRef := true }
      let s3 := { s2 with sessionPromiseRef := true, sessionRef := true,
                          activeTransports := s2.activeTransports + 1 }
      if env.openOk then
        ({ s3 with connectionState := ConnectionState.CONNECTED,
                   sourceRef := true, processorRef := true,
                   frameIntervalRef := true },
         [ConnectionState.CONNECTING, ConnectionState.CONNECTED])
      else
        (s3, [ConnectionState.CONNECTING])

/-- The state after a startSession attempt. -/
def startSession (env : StartEnv) (s : InterpreterState) : InterpreterState :=
  (startSessionRun env s).1

/-- C4: after stop() the connection state is Disconnected, the pending
transcript buffer is empty, the device and processing handles are all
released, the finalized transcript is unchanged, and a second stop() changes
nothing.  stopSession is a total function on every state, including a
Connecting state in which no device was acquired, so it cannot throw. -/
theorem stopSession_spec (s : InterpreterState) :
    (stopSession s).connectionState = ConnectionState.DISCONNECTED ∧
    (stopSession s).currentTranscription = "" ∧
    (stopSession s).messages = s.messages ∧
    (stopSession s).streamRef = false ∧
    (stopSession s).sessionRef = false ∧
    (stopSession s).frameIntervalRef = false ∧
    (stopSession s).processorRef = false ∧
    (stopSession s).sourceRef = false ∧
    stopSession (stopSession s) = stopSession s := by
  obtain ⟨cs, m, v, msgs, cur, err, st, se, sp, nst, fi, pr, so, at'⟩ := s
  cases st <;> cases se <;>
    simp [stopSession, stopMediaProcessing]

/-- JavaScript truthiness of an optional string: present and non-empty. -/
def truthy (o : Option String) : Bool := o.getD "" ≠ ""

/-- JavaScript String.prototype.trim, as used on Interpreter.tsx line 296:
removes whitespace from both ends of the string. -/
def jsTrim (s : String) : String :=
  String.mk (List.reverse (List.dropWhile Char.isWhitespace
    (List.reverse (List.dropWhile Char.isWhitespace s.data))))

/-- The transcript portion of handleServerMessage (Interpreter.tsx lines
280-306), as a transition on the component state.  now is the current clock
(Date.now() in milliseconds).  Faithful to the source: when the output
transcription text is truthy it is appended to currentTranscription (input
transcription text is read but never appended); when turnComplete is set and
the accumulated text is non-empty after trimming, a message with a fresh id,
role model, the accumulated text and the current timestamp is appended and
currentTranscription is cleared — the clearing happens only inside that
branch. -/
def handleServerMessageTranscript (now : Nat) (outputT inputT : Option String)
    (turnComplete : Bool) (s : InterpreterState) : InterpreterState :=
  let s1 :=
    if truthy outputT || truthy inputT then
      (if truthy outputT then
        { s with currentTranscription := s.currentTranscription ++ outputT.getD "" }
      else s)
    else s
  if turnComplete then
    let finalTranscript := s1.currentTranscription
    if jsTrim finalTranscript ≠ "" then
      { s1 with
        messages := s1.messages ++
          [{ id := toString now, role := Role.model,
             text := finalTranscript, timestamp := now }],
        currentTranscription := "" }
    else s1
  else s1

/-- C2: from an empty pending buffer, TranscriptDelta "Hello " then
TranscriptDelta "world" (both output-sourced) then TurnComplete appends
exactly one Turn, with role model, text "Hello world" and the current
timestamp, and leaves the pending buffer empty. -/
theorem transcript_aggregation (s : InterpreterState) (now : Nat)
    (h : s.currentTranscription = "") :
    (handleServerMessageTranscript now none none true
      (handleServerMessageTranscript now (some "world") none false
        (handleServerMessageTranscript now (some "Hello ") none false s))).messages
      = s.messages ++
        [{ id := toString now, role := Role.model,
           text := "Hello world", timestamp := now }] ∧
    (handleServerMessageTranscript now none none true
      (handleServerMessageTranscript now (some "world") none false
        (handleServerMessageTranscript now (some "Hello ") none false s))).currentTranscription
      = "" := by
  obtain ⟨cs, m, v, msgs, cur, err, st, se, sp, nst, fi, pr, so, at'⟩ := s
  simp only at h
  subst h
  exact ⟨rfl, rfl⟩

/-- Witness for C2 at the initial component state with clock 17. -/
theorem transcript_aggregation_witness :
    initialState.currentTranscription = "" ∧
    ((handleServerMessageTranscript 17 none none true
      (handleServerMessageTranscript 17 (some "world") none false
        (handleServerMessageTranscript 17 (some "Hello ") none false initialState))).messages
      = initialState.messages ++
        [{ id := toString 17, role := Role.model,
           text := "Hello world", timestamp := 17 }] ∧
    (handleServerMessageTranscript 17 none none true
      (handleServerMessageTranscript 17 (some "world") none false
        (handleServerMessageTranscript 17 (some "Hello ") none false initialState))).currentTranscription
      = "") :=
  ⟨rfl, transcript_aggregation initialState 17 rfl⟩

/-- C3 counterexample: a TurnComplete on a whitespace-only pending buffer
(one space) appends no Turn, but the buffer is NOT reset to empty — the
source clears currentTranscription only inside the branch that appends a
Turn, so the buffer still holds the single space afterwards. -/
theorem turnComplete_whitespace_counterexample :
    (handleServerMessageTranscript 0 none none true
      { initialState with currentTranscription := " " }).messages = [] ∧
    (handleServerMessageTranscript 0 none none true
      { initialState with currentTranscription := " " }).currentTranscription = " " ∧
    ¬ (handleServerMessageTranscript 0 none none true
      { initialState with currentTranscription := " " }).currentTranscription = "" := by
  exact ⟨rfl, rfl, by decide⟩

/-- C3 amended: a TurnComplete arriving while the pending buffer is empty or
whitespace-only after trimming appends no Turn and leaves the whole state —
in particular the pending buffer — unchanged; the buffer is cleared only when
a Turn is finalized. -/
theorem turnComplete_blank_buffer (s : InterpreterState) (now : Nat)
    (h : jsTrim s.currentTranscription = "") :
    handleServerMessageTranscript now none none true s = s := by
  simp [handleServerMessageTranscript, truthy, h]

/-- Witness for the amended C3 at a buffer holding two spaces. -/
theorem turnComplete_blank_buffer_witness :
    jsTrim ({ initialState with currentTranscription := "  " } :
        InterpreterState).currentTranscription = "" ∧
    handleServerMessageTranscript 3 none none true
      { initialState with currentTranscription := "  " }
      = { initialState with currentTranscription := "  " } :=
  ⟨by decide, turnComplete_blank_buffer _ 3 (by decide)⟩

/-- C6 counterexample: from a connected session, the transport error handler
ends with connection state DISCONNECTED, not ERROR — the handler assigns
ERROR but then calls stopSession, which overwrites it with DISCONNECTED, so
Error is not a terminal state of the session instance. -/
theorem error_state_not_terminal_counterexample :
    (handleTransportErrorRun
      (startSession { apiKey := some "k", mediaOk := true, openOk := true }
        initialState)).1.connectionState = ConnectionState.DISCONNECTED ∧
    ConnectionState.DISCONNECTED ≠ ConnectionState.ERROR := by
  refine ⟨rfl, ?_⟩
  intro h
  cases h

/-- C6 amended: on a start-attempt failure or a transport-level error the
controller assigns the Error state and surfaces a user-visible message, then
performs full teardown (devices released, timers cancelled, session closed),
which transitions the final connection state to DISCONNECTED; the Error state
is transient, not terminal, while the error message remains surfaced. -/
theorem error_teardown (s : InterpreterState) (msg : String) :
    ((handleStartFailure msg s).errorMsg = some msg ∧
     (handleStartFailure msg s).connectionState = ConnectionState.DISCONNECTED ∧
     (handleStartFailure msg s).streamRef = false ∧
     (handleStartFailure msg s).frameIntervalRef = false ∧
     (handleStartFailure msg s).processorRef = false ∧
     (handleStartFailure msg s).sourceRef = false ∧
     (handleStartFailure msg s).sessionRef = false) ∧
    ((handleTransportErrorRun s).2 =
       [ConnectionState.ERROR, ConnectionState.DISCONNECTED] ∧
     (handleTransportErrorRun s).1.errorMsg =
       some "Connection error occurred. Please try again." ∧
     (handleTransportErrorRun s).1.connectionState = ConnectionState.DISCONNECTED ∧
     (handleTransportErrorRun s).1.streamRef = false ∧
     (handleTransportErrorRun s).1.frameIntervalRef = false ∧
     (handleTransportErrorRun s).1.sessionRef = false) := by
  obtain ⟨cs, m, v, msgs, cur, err, st, se, sp, nst, fi, pr, so, at'⟩ := s
  cases st <;> cases se <;>
    simp [handleStartFailure, handleTransportErrorRun, stopSession,
      stopMediaProcessing]

/-- C7: a start() attempt with the credential absent (undefined or empty)
fails fast: the error message is the configuration error, the final state is
Disconnected, and CONNECTING is never among the connection states assigned
during the attempt. -/
theorem start_missing_credential (env : StartEnv) (s : InterpreterState)
    (h : credentialPresent env.apiKey = false) :
    ConnectionState.CONNECTING ∉ (startSessionRun env s).2 ∧
    (startSessionRun env s).1.errorMsg =
      some "API Key is missing. Please check your deployment settings or .env file." ∧
    (startSessionRun env s).1.connectionState = ConnectionState.DISCONNECTED := by
  obtain ⟨cs, m, v, msgs, cur, err, st, se, sp, nst, fi, pr, so, at'⟩ := s
  cases st <;> cases se <;>
    simp [startSessionRun, h, handleStartFailure, stopSession,
      stopMediaProcessing]

/-- Witness for C7 with no credential in the environment. -/
theorem start_missing_credential_witness :
    credentialPresent (StartEnv.mk none true true).apiKey = false ∧
    (ConnectionState.CONNECTING ∉
      (startSessionRun (StartEnv.mk none true true) initialState).2 ∧
    (startSessionRun (StartEnv.mk none true true) initialState).1.errorMsg =
      some "API Key is missing. Please check your deployment settings or .env file." ∧
    (startSessionRun (StartEnv.mk none true true) initialState).1.connectionState
      = ConnectionState.DISCONNECTED) :=
  ⟨by decide, start_missing_credential (StartEnv.mk none true true) initialState
    (by decide)⟩

/-- C8 counterexample: startSession never inspects the current connection
state.  After one successful start (state Connected, one active transport), a
second start is neither rejected nor does it stop the existing session: it
opens a second transport, so two transports are simultaneously active. -/
theorem double_start_counterexample :
    (startSession { apiKey := some "k", mediaOk := true, openOk := true }
      initialState).connectionState = ConnectionState.CONNECTED ∧
    (startSession { apiKey := some "k", mediaOk := true, openOk := true }
      initialState).activeTransports = 1 ∧
    (startSession { apiKey := some "k", mediaOk := true, openOk := true }
      (startSession { apiKey := some "k", mediaOk := true, openOk := true }
        initialState)).activeTransports = 2 := by
  refine ⟨rfl, rfl, rfl⟩

/-- C8 amended: a second start() while Connecting or Connected is neither
rejected nor preceded by a stop of the existing session: whenever the
credential is present and capture acquisition succeeds, startSession opens a
fresh transport unconditionally, leaving every previously active transport
active, so from a Connected state with one active transport it produces two
simultaneously active transports. -/
theorem start_opens_new_transport (env : StartEnv) (s : InterpreterState)
    (hk : credentialPresent env.apiKey = true) (hm : env.mediaOk = true) :
    (startSession env s).activeTransports = s.activeTransports + 1 ∧
    (startSessionRun env s).2.head? = some ConnectionState.CONNECTING := by
  obtain ⟨k, mo, oo⟩ := env
  obtain ⟨cs, m, v, msgs, cur, err, st, se, sp, nst, fi, pr, so, at'⟩ := s
  simp only at hk hm
  subst hm
  cases oo <;> simp [startSession, startSessionRun, hk]

/-- Witness for the amended C8: a second start from the connected state. -/
theorem start_opens_new_transport_witness :
    credentialPresent (StartEnv.mk (some "k") true true).apiKey = true ∧
    (StartEnv.mk (some "k") true true).mediaOk = true ∧
    ((startSession (StartEnv.mk (some "k") true true)
      (startSession (StartEnv.mk (some "k") true true) initialState)).activeTransports
        = (startSession (StartEnv.mk (some "k") true true) initialState).activeTransports + 1 ∧
    (startSessionRun (StartEnv.mk (some "k") true true)
      (startSession (StartEnv.mk (some "k") true true) initialState)).2.head?
        = some ConnectionState.CONNECTING) :=
  ⟨by decide, by decide,
   start_opens_new_transport (StartEnv.mk (some "k") true true)
     (startSession (StartEnv.mk (some "k") true true) initialState)
     (by decide) (by decide)⟩

/-- Modelled from the spec: floatToPCM16 of the PCM Codec (§4.1), whose
source module (the audio utilities imported as float32ToPCM16 by
Interpreter.tsx) is not in the repository snapshot.  Per the spec it clamps
each sample to the interval from -1 to 1 and scales it to the signed 16-bit
range.  Samples are rationals; the scaled value is rounded toward zero by
truncation after scaling by 32767. -/
def float32ToPCM16 (samples : List ℚ) : List ℤ :=
  samples.map fun x => Int.floor (max (-1 : ℚ) (min 1 x) * 32767)

/-- Modelled from the spec: the little-endian byte serialization of one
signed 16-bit sample (§4.1, "writes little-endian"): the two's-complement
16-bit image of the value, low byte first. -/
def int16ToBytes (v : ℤ) : List ℕ :=
  let u := (v % 65536).toNat
  [u % 256, u / 256]

/-- Modelled from the spec: the byte serialization of a whole PCM16 sample
block, low byte of each sample first (§4.1). -/
def pcm16ToBytes (l : List ℤ) : List ℕ :=
  l.flatMap int16ToBytes

/-- An outbound media chunk as sent by the capture pipeline: the literal
shape of the sendRealtimeInput payload in Interpreter.tsx lines 209-214. -/
structure OutboundChunk where
  mimeType : String
  data : String
deriving DecidableEq, Repr

/-- The standard base64 alphabet, indices 0 to 63. -/
def base64Alphabet : List Char :=
  ['A', 'B', 'C', 'D', 'E', 'F', 'G', 'H', 'I', 'J', 'K', 'L', 'M',
   'N', 'O', 'P', 'Q', 'R', 'S', 'T', 'U', 'V', 'W', 'X', 'Y', 'Z',
   'a', 'b', 'c', 'd', 'e', 'f', 'g', 'h', 'i', 'j', 'k', 'l', 'm',
   'n', 'o', 'p', 'q', 'r', 's', 't', 'u', 'v', 'w', 'x', 'y', 'z',
   '0', '1', '2', '3', '4', '5', '6', '7', '8', '9', '+', '/']

/-- The character encoding one six-bit group. -/
def sextetChar (n : ℕ) : Char := base64Alphabet.getD n 'A'

/-- The six-bit group encoded by one alphabet character. -/
def charSextet (c : Char) : ℕ := base64Alphabet.indexOf c

/-- Modelled from the spec: bytesToBase64 of the PCM Codec (§4.1, the audio
utility imported as uint8ArrayToBase64 by Interpreter.tsx, absent from the
snapshot): standard base64 — each group of three bytes becomes four alphabet
characters, a trailing group of one or two bytes becomes two or three
characters padded with the pad character to a multiple of four. -/
def encodeChunks : List ℕ → List Char
  | [] => []
  | [a] => [sextetChar (a / 4), sextetChar (a % 4 * 16), '=', '=']
  | [a, b] =>
    [sextetChar (a / 4), sextetChar (a % 4 * 16 + b / 16),
     sextetChar (b % 16 * 4), '=']
  | a :: b :: c :: rest =>
    sextetChar (a / 4) :: sextetChar (a % 4 * 16 + b / 16) ::
    sextetChar (b % 16 * 4 + c / 64) :: sextetChar (c % 64) ::
    encodeChunks rest

/-- Modelled from the spec: the text-safe transport encoding of a byte
sequence (§4.1). -/
def bytesToBase64 (l : List ℕ) : String := String.mk (encodeChunks l)

/-- Modelled from the spec: the byte sequence denoted by a list of six-bit
groups — four groups give three bytes, a trailing three give two, a trailing
two give one. -/
def decodeSextets : List ℕ → List ℕ
  | s1 :: s2 :: s3 :: s4 :: rest =>
    (s1 * 4 + s2 / 16) :: (s2 % 16 * 16 + s3 / 4) :: (s3 % 4 * 64 + s4) ::
    decodeSextets rest
  | [s1, s2, s3] => [s1 * 4 + s2 / 16, s2 % 16 * 16 + s3 / 4]
  | [s1, s2] => [s1 * 4 + s2 / 16]
  | _ => []

/-- Modelled from the spec: base64ToBytes of the PCM Codec (§4.1, the audio
utility imported as base64ToUint8Array by Interpreter.tsx, absent from the
snapshot): drop padding, map each alphabet character back to its six-bit
group, and reassemble the bytes. -/
def base64ToBytes (s : String) : List ℕ :=
  decodeSextets ((s.data.filter fun c => c != '=').map charSextet)

/-- The microphone onaudioprocess callback (Interpreter.tsx lines 199-219),
as a function from the mute flag at the time the 4096-sample block is
produced and the block's samples to the outbound chunk sent for that block:
when muted the callback returns before doing anything, so nothing is sent
and nothing is buffered; otherwise the block is converted to 16-bit PCM,
serialized, base64-encoded and sent as exactly one chunk with mime type
audio/pcm;rate=16000. -/
def onAudioProcess (isMuted : Bool) (samples : List ℚ) : Option OutboundChunk :=
  if isMuted then none
  else some
    { mimeType := "audio/pcm;rate=16000"
      data := bytesToBase64 (pcm16ToBytes (float32ToPCM16 samples)) }

/-- toggleMute (Interpreter.tsx line 309). -/
def toggleMute (s : InterpreterState) : InterpreterState :=
  { s with isMuted := !s.isMuted }

/-- C5: for every captured audio block, a muted capture sends nothing (the
block is dropped, not buffered), and an unmuted capture sends exactly one
chunk holding the base64 of the block's little-endian 16-bit PCM samples
under mime type audio/pcm;rate=16000. -/
theorem mute_gates_audio (samples : List ℚ) :
    onAudioProcess true samples = none ∧
    onAudioProcess false samples = some
      { mimeType := "audio/pcm;rate=16000"
        data := bytesToBase64 (pcm16ToBytes (float32ToPCM16 samples)) } := by
  exact ⟨rfl, rfl⟩

/-- Consecutive (low byte, high byte) pairs of a byte list; a dangling odd
byte yields no pair. -/
def bytePairs : List ℕ → List (ℕ × ℕ)
  | lo :: hi :: rest => (lo, hi) :: bytePairs rest
  | _ => []

/-- The mono sample denoted by one little-endian 16-bit PCM pair: the
two's-complement value scaled by 1/32768, so every sample lies between -1
and 1 (§4.1). -/
def pcm16SampleToFloat (lo hi : ℕ) : ℚ :=
  let v : ℤ := (lo : ℤ) + 256 * (hi : ℤ)
  (if v ≥ 32768 then v - 65536 else v) / 32768

/-- Modelled from the spec: decodeAudioFrame of the PCM Codec (§4.1, the
audio utility imported as decodeAudioData by Interpreter.tsx, absent from the
snapshot): interprets raw little-endian 16-bit PCM bytes as normalized mono
samples, and fails with a DecodeError — here none — when the byte length is
not a multiple of 2. -/
def decodeAudioFrame (bytes : List ℕ) : Option (List ℚ) :=
  if bytes.length % 2 = 0 then
    some ((bytePairs bytes).map fun p => pcm16SampleToFloat p.1 p.2)
  else none

/-- The audio branch of handleServerMessage (Interpreter.tsx lines 264-278)
over a whole inbound sequence: each frame is a pair of its arrival clock time
and its raw bytes; rate is the playback sample rate, so a decoded frame's
duration is its sample count divided by rate.  A frame whose decode fails is
dropped with a logged warning (§4.2) and the cursor is left unchanged; a
decoded frame is scheduled at max(arrival clock, cursor) and the cursor
advances past it.  Returns the scheduled (start time, duration) pairs. -/
def processInbound (rate : ℚ) (cursor : ℚ) :
    List (ℚ × List ℕ) → List (ℚ × ℚ)
  | [] => []
  | (now, bytes) :: rest =>
    match decodeAudioFrame bytes with
    | none => processInbound rate cursor rest
    | some samples =>
      let d : ℚ := samples.length / rate
      let s := max now cursor
      (s, d) :: processInbound rate (s + d) rest

/-- C9: in a 5-frame sequence whose third frame is malformed (odd byte
length, so the decode fails), frames 1, 2, 4 and 5 are scheduled and frame 3
is skipped, with the cursor advancing correctly around the gap.  At rate 2
each well-formed 4-byte frame holds 2 samples and lasts 1 time unit; frames
arrive at clock times 0, 0, 0, 0 and 10, so the scheduled intervals are
(0,1), (1,1), (2,1) from the cursor chain and (10,1) after the real-time
gap. -/
theorem decode_error_skips_frame :
    processInbound 2 0
      [(0, [0, 0, 0, 0]), (0, [1, 1, 1, 1]), (0, [5, 5, 5]),
       (0, [2, 2, 2, 2]), (10, [3, 3, 3, 3])]
      = [(0, 1), (1, 1), (2, 1), (10, 1)] := by
  norm_num [processInbound, decodeAudioFrame, bytePairs, max_def]

theorem charSextet_sextetChar_fin :
    ∀ s : Fin 64, charSextet (sextetChar s.val) = s.val := by decide

theorem charSextet_sextetChar (s : ℕ) (h : s < 64) :
    charSextet (sextetChar s) = s :=
  charSextet_sextetChar_fin ⟨s, h⟩

theorem sextetChar_ne_pad_fin :
    ∀ s : Fin 64, (sextetChar s.val != '=') = true := by decide

theorem sextetChar_ne_pad (s : ℕ) (h : s < 64) :
    (sextetChar s != '=') = true :=
  sextetChar_ne_pad_fin ⟨s, h⟩

/-- Sanity check: the classic three-byte example encodes as in RFC 4648. -/
theorem bytesToBase64_example : bytesToBase64 [77, 97, 110] = "TWFu" := by
  decide

/-- Decoding inverts encoding at the level of character lists, for byte
lists. -/
theorem decode_encodeChunks (l : List ℕ) (h : ∀ x ∈ l, x < 256) :
    decodeSextets (((encodeChunks l).filter fun c => c != '=').map charSextet)
      = l := by
  match l with
  | [] => rfl
  | [a] =>
    have ha : a < 256 := h a (by simp)
    have e1 : (sextetChar (a / 4) != '=') = true :=
      sextetChar_ne_pad _ (by omega)
    have e2 : (sextetChar (a % 4 * 16) != '=') = true :=
      sextetChar_ne_pad _ (by omega)
    have c1 : charSextet (sextetChar (a / 4)) = a / 4 :=
      charSextet_sextetChar _ (by omega)
    have c2 : charSextet (sextetChar (a % 4 * 16)) = a % 4 * 16 :=
      charSextet_sextetChar _ (by omega)
    simp [encodeChunks, e1, e2, c1, c2, decodeSextets]
    omega
  | [a, b] =>
    have ha : a < 256 := h a (by simp)
    have hb : b < 256 := h b (by simp)
    have e1 : (sextetChar (a / 4) != '=') = true :=
      sextetChar_ne_pad _ (by omega)
    have e2 : (sextetChar (a % 4 * 16 + b / 16) != '=') = true :=
      sextetChar_ne_pad _ (by omega)
    have e3 : (sextetChar (b % 16 * 4) != '=') = true :=
      sextetChar_ne_pad _ (by omega)
    have c1 : charSextet (sextetChar (a / 4)) = a / 4 :=
      charSextet_sextetChar _ (by omega)
    have c2 : charSextet (sextetChar (a % 4 * 16 + b / 16))
        = a % 4 * 16 + b / 16 :=
      charSextet_sextetChar _ (by omega)
    have c3 : charSextet (sextetChar (b % 16 * 4)) = b % 16 * 4 :=
      charSextet_sextetChar _ (by omega)
    simp [encodeChunks, e1, e2, e3, c1, c2, c3, decodeSextets]
    omega
  | a :: b :: c :: rest =>
    have ha : a < 256 := h a (by simp)
    have hb : b < 256 := h b (by simp)
    have hc : c < 256 := h c (by simp)
    have ih := decode_encodeChunks rest fun x hx => h x (by simp [hx])
    have e1 : (sextetChar (a / 4) != '=') = true :=
      sextetChar_ne_pad _ (by omega)
    have e2 : (sextetChar (a % 4 * 16 + b / 16) != '=') = true :=
      sextetChar_ne_pad _ (by omega)
    have e3 : (sextetChar (b % 16 * 4 + c / 64) != '=') = true :=
      sextetChar_ne_pad _ (by omega)
    have e4 : (sextetChar (c % 64) != '=') = true :=
      sextetChar_ne_pad _ (by omega)
    have c1 : charSextet (sextetChar (a / 4)) = a / 4 :=
      charSextet_sextetChar _ (by omega)
    have c2 : charSextet (sextetChar (a % 4 * 16 + b / 16))
        = a % 4 * 16 + b / 16 :=
      charSextet_sextetChar _ (by omega)
    have c3 : charSextet (sextetChar (b % 16 * 4 + c / 64))
        = b % 16 * 4 + c / 64 :=
      charSextet_sextetChar _ (by omega)
    have c4 : charSextet (sextetChar (c % 64)) = c % 64 :=
      charSextet_sextetChar _ (by omega)
    simp [encodeChunks, e1, e2, e3, e4, c1, c2, c3, c4, decodeSextets, ih]
    omega

/-- C10: the transport encoding round-trips losslessly — decoding the base64
text of any byte sequence yields the byte sequence back. -/
theorem base64_roundtrip (l : List ℕ) (h : ∀ x ∈ l, x < 256) :
    base64ToBytes (bytesToBase64 l) = l := by
  simp only [base64ToBytes, bytesToBase64]
  exact decode_encodeChunks l h

/-- Witness for C10 at a concrete five-byte sequence. -/
theorem base64_roundtrip_witness :
    (∀ x ∈ [0, 255, 77, 10, 128], x < 256) ∧
    base64ToBytes (bytesToBase64 [0, 255, 77, 10, 128]) = [0, 255, 77, 10, 128] :=
  ⟨by decide, base64_roundtrip [0, 255, 77, 10, 128] (by decide)⟩

end SignSpeak
